import Mathlib

/-!
Verification of the port-pool and experiment-lifecycle logic of
Curious-Container-API (cc-api/cc-api.js).

The JavaScript classes are shallowly embedded: the process-wide
SSHServer.availablePorts array becomes an explicit List Nat threaded through
the operations, instance state becomes explicit record values, and the
event-driven callback loops (runDockerCommand, fetchAndWaitForPort) become
recursive functions on the data that drives them (per-attempt command
outcomes, fuel for timer iterations).
-/

namespace CCApi

/-! ## Port pool (static members of SSHServer) -/

/-- State of one SSHServer instance, restricted to the fields the pool and
stop logic read: the leased port (`this.reservedPort`, absent until
`reservePort` succeeds) and the recorded container identifier
(`this.containerId`). -/
structure SSHServerState where
  reservedPort : Option Nat
  containerId : String
  deriving DecidableEq

/-- `SSHServer.freePort` (cc-api.js lines 982-987).  The source guards with JS
truthiness (`if (this.reservedPort)`, false for `undefined` and for `0`),
appends the port to `SSHServer.availablePorts`, and then executes
`this.reservePort = undefined` — which assigns a *different* property
(`reservePort`, shadowing the method of that name) and leaves
`this.reservedPort` unchanged.  The returned state therefore still carries the
lease. -/
def freePort (s : SSHServerState) (pool : List Nat) : SSHServerState × List Nat :=
  match s.reservedPort with
  | some p => if p ≠ 0 then (s, pool ++ [p]) else (s, pool)
  | none => (s, pool)

/-- `SSHServer.setPortRange` (cc-api.js lines 1005-1014): silently returns when
`firstPort > lastPort`; otherwise replaces `availablePorts` with the integers
`firstPort, firstPort+1, ..., lastPort` pushed in ascending order. -/
def setPortRange (firstPort lastPort : Nat) (pool : List Nat) : List Nat :=
  if firstPort > lastPort then pool
  else List.range' firstPort (lastPort + 1 - firstPort)

/-- One acquisition step: `SSHServer.availablePorts.shift()` removes and
returns the head of the array (`undefined` when empty). -/
def shiftPort : List Nat → Option Nat × List Nat
  | [] => (none, [])
  | p :: rest => (some p, rest)

/-- Performs `n` successive shift acquisitions against a pool, returning the
sequence of leased ports and the remaining pool (stopping early if the pool
runs dry). -/
def leaseSeq : Nat → List Nat → List Nat × List Nat
  | 0, pool => ([], pool)
  | Nat.succ n, pool =>
      match shiftPort pool with
      | (none, rest) => ([], rest)
      | (some p, rest) =>
          let r := leaseSeq n rest
          (p :: r.1, r.2)

/-- Draining a pool with exactly as many acquisitions as it has ports yields
the pool's elements in order and leaves it empty. -/
theorem leaseSeq_length (l : List Nat) : leaseSeq l.length l = (l, []) := by
  induction l with
  | nil => rfl
  | cons p rest ih => simp [leaseSeq, shiftPort, ih]

/-! ## Claim C3: double release -/

/-- Claim C3 (code bug witness): releasing the same leased port twice puts it
into the available set twice.  Starting from an SSHServer with
reservedPort = 5000 and an empty pool, two freePort calls leave the pool as
[5000, 5000] — the lease record survives the first release because the source
clears the wrong property — so the port can subsequently be leased to two
owners at once, contradicting the claimed double-release safety. -/
theorem c3_freePort_double_release_duplicates :
    (freePort (freePort ⟨some 5000, "cid"⟩ []).1 (freePort ⟨some 5000, "cid"⟩ []).2).2
        = [5000, 5000] ∧
    ((freePort (freePort ⟨some 5000, "cid"⟩ []).1 (freePort ⟨some 5000, "cid"⟩ []).2).2).count 5000 = 2 ∧
    ((freePort ⟨some 5000, "cid"⟩ []).1).reservedPort = some 5000 := by
  constructor
  · rfl
  · constructor
    · rfl
    · rfl

/-! ## Claim C7: configuring the port range -/

/-- Claim C7: for firstPort ≤ lastPort, setPortRange replaces the available
set with exactly the integers of [firstPort, lastPort] in strictly ascending
order — lastPort-firstPort+1 ports, leased first-to-last by successive
acquisitions, each exactly once, after which the pool is empty and a further
acquisition finds no port; for firstPort > lastPort the call leaves any prior
pool state unchanged. -/
theorem c7_setPortRange_spec (firstPort lastPort : Nat) (pool : List Nat) :
    (firstPort ≤ lastPort →
        setPortRange firstPort lastPort pool
            = List.range' firstPort (lastPort - firstPort + 1) ∧
        (setPortRange firstPort lastPort pool).length = lastPort - firstPort + 1 ∧
        List.Pairwise (· < ·) (setPortRange firstPort lastPort pool) ∧
        leaseSeq (lastPort - firstPort + 1) (setPortRange firstPort lastPort pool)
            = (setPortRange firstPort lastPort pool, []) ∧
        shiftPort (leaseSeq (lastPort - firstPort + 1)
            (setPortRange firstPort lastPort pool)).2 = (none, [])) ∧
    (firstPort > lastPort → setPortRange firstPort lastPort pool = pool) := by
  constructor
  · intro h
    have hif : ¬ firstPort > lastPort := by omega
    have hn : lastPort + 1 - firstPort = lastPort - firstPort + 1 := by omega
    have heq : setPortRange firstPort lastPort pool
        = List.range' firstPort (lastPort - firstPort + 1) := by
      simp [setPortRange, hif, hn]
    refine ⟨heq, ?_, ?_, ?_, ?_⟩
    · rw [heq]; simp
    · rw [heq]; exact List.pairwise_lt_range' firstPort (lastPort - firstPort + 1)
    · rw [heq]
      have hd := leaseSeq_length (List.range' firstPort (lastPort - firstPort + 1))
      rw [List.length_range'] at hd
      exact hd
    · rw [heq]
      have hd := leaseSeq_length (List.range' firstPort (lastPort - firstPort + 1))
      rw [List.length_range'] at hd
      rw [hd]
      rfl
  · intro h
    simp [setPortRange, h]

/-- Claim C7 witness: with the range [5000, 5001] configured over a prior pool
[1, 2], the available set becomes exactly the two ports 5000 and 5001 in
ascending order; configuring the inverted range [7, 3] leaves the prior pool
[42] untouched. -/
theorem c7_setPortRange_witness :
    setPortRange 5000 5001 [1, 2] = List.range' 5000 (5001 - 5000 + 1) ∧
    setPortRange 7 3 [42] = [42] :=
  ⟨((c7_setPortRange_spec 5000 5001 [1, 2]).1 (by omega)).1,
   (c7_setPortRange_spec 7 3 [42]).2 (by omega)⟩

/-! ## Claim C6: the external-process runner -/

/-- Outcome of SSHServer.runDockerCommand: the promise either resolves with
the stdout of the succeeding attempt or rejects with an Error wrapping the
last failure.  The attempts field is the number of exec invocations performed
when the promise settles. -/
inductive RunResult
  | success (stdout : String) (attempts : Nat)
  | failure (lastError : String) (attempts : Nat)
  deriving DecidableEq

/-- Retry loop of SSHServer.runDockerCommand (cc-api.js lines 920-938).  The
external world is modelled by behavior, mapping the 0-based attempt index to
that attempt's exec outcome (Except.ok stdout or Except.error message).
attempt is the current index and remaining the retries still permitted:
the source retries while retries++ < maxRetries, so attempt r has
remaining = maxRetries - r, and the rejection with the last error happens when
an attempt fails with remaining = 0.  (After the final reject the source also
runs resolve(stdout), which is a no-op on an already-settled promise.) -/
def runAttempts (behavior : Nat → Except String String) : Nat → Nat → RunResult
  | attempt, 0 =>
      match behavior attempt with
      | Except.ok out => RunResult.success out (attempt + 1)
      | Except.error e => RunResult.failure e (attempt + 1)
  | attempt, Nat.succ r =>
      match behavior attempt with
      | Except.ok out => RunResult.success out (attempt + 1)
      | Except.error _ => runAttempts behavior (attempt + 1) r

/-- SSHServer.runDockerCommand(cmd, maxRetries, timeout): the first attempt
runs with the full retry budget.  (The inter-retry timeout only schedules the
next attempt and does not affect which attempt settles the promise.) -/
def runDockerCommand (behavior : Nat → Except String String) (maxRetries : Nat) : RunResult :=
  runAttempts behavior 0 maxRetries

/-- A run whose attempts all fail settles as a failure carrying the error of
the last permitted attempt, after attempt+remaining+1 invocations. -/
theorem runAttempts_fail (behavior : Nat → Except String String) (errOf : Nat → String) :
    ∀ remaining attempt,
      (∀ i, attempt ≤ i → i ≤ attempt + remaining → behavior i = Except.error (errOf i)) →
      runAttempts behavior attempt remaining
          = RunResult.failure (errOf (attempt + remaining)) (attempt + remaining + 1) := by
  intro remaining
  induction remaining with
  | zero =>
      intro attempt h
      have ha := h attempt (Nat.le_refl _) (by omega)
      simp [runAttempts, ha]
  | succ r ih =>
      intro attempt h
      have ha := h attempt (Nat.le_refl _) (by omega)
      have hrec := ih (attempt + 1) (fun i h1 h2 => h i (by omega) (by omega))
      have harith : attempt + 1 + r = attempt + (r + 1) := by omega
      rw [harith] at hrec
      simp [runAttempts, ha, hrec]

/-- A run whose first success is at attempt index k within the budget settles
as that attempt's stdout after exactly k+1 invocations. -/
theorem runAttempts_success (behavior : Nat → Except String String) (errOf : Nat → String) :
    ∀ remaining attempt k out, attempt ≤ k → k ≤ attempt + remaining →
      (∀ i, attempt ≤ i → i < k → behavior i = Except.error (errOf i)) →
      behavior k = Except.ok out →
      runAttempts behavior attempt remaining = RunResult.success out (k + 1) := by
  intro remaining
  induction remaining with
  | zero =>
      intro attempt k out h1 h2 h3 h4
      have hk : k = attempt := by omega
      subst hk
      simp [runAttempts, h4]
  | succ r ih =>
      intro attempt k out h1 h2 h3 h4
      by_cases hk : k = attempt
      · subst hk
        simp [runAttempts, h4]
      · have ha := h3 attempt (Nat.le_refl _) (by omega)
        have hrec := ih (attempt + 1) k out (by omega) (by omega)
          (fun i hi1 hi2 => h3 i (by omega) hi2) h4
        simp [runAttempts, ha, hrec]

/-- Claim C6: when every attempt up to the budget fails, runDockerCommand with
maxRetries = n makes exactly n+1 invocation attempts and settles as a failure
wrapping the last attempt's error; and when the first succeeding attempt has
index k within the budget, it resolves with that attempt's stdout after
exactly k+1 invocations, making no further attempts. -/
theorem c6_runDockerCommand_attempts (behavior : Nat → Except String String)
    (errOf : Nat → String) (n : Nat) :
    ((∀ i, i ≤ n → behavior i = Except.error (errOf i)) →
        runDockerCommand behavior n = RunResult.failure (errOf n) (n + 1)) ∧
    (∀ k out, k ≤ n → (∀ i, i < k → behavior i = Except.error (errOf i)) →
        behavior k = Except.ok out →
        runDockerCommand behavior n = RunResult.success out (k + 1)) := by
  constructor
  · intro h
    have := runAttempts_fail behavior errOf n 0 (fun i h1 h2 => h i (by omega))
    simpa [runDockerCommand] using this
  · intro k out hk hb hs
    exact runAttempts_success behavior errOf n 0 k out (by omega) (by omega)
      (fun i _ h2 => hb i h2) hs

/-- Claim C6 witness: a command failing on every attempt with maxRetries = 2
makes exactly 3 attempts and fails with the last error; a command succeeding
on its second attempt (index 1) resolves with that attempt's stdout after
exactly 2 attempts. -/
theorem c6_runDockerCommand_witness :
    runDockerCommand (fun _ => Except.error "boom") 2 = RunResult.failure "boom" 3 ∧
    runDockerCommand (fun i => if i = 1 then Except.ok "cid" else Except.error "boom") 2
        = RunResult.success "cid" 2 :=
  ⟨(c6_runDockerCommand_attempts (fun _ => Except.error "boom") (fun _ => "boom") 2).1
      (fun i _ => rfl),
   (c6_runDockerCommand_attempts (fun i => if i = 1 then Except.ok "cid" else Except.error "boom")
      (fun _ => "boom") 2).2 1 "cid" (by omega)
      (fun i hi => by
        have h0 : i = 0 := by omega
        subst h0
        rfl)
      rfl⟩

/-! ## Claim C5: stopServer -/

/-- Result of SSHServer.stopServer: the settled outcome, the docker commands
issued in order, and the SSHServer state and port pool afterwards. -/
structure StopResult where
  result : Except String Unit
  issued : List String
  state : SSHServerState
  pool : List Nat

/-- SSHServer.stopServer (cc-api.js lines 902-910): runs docker stop and then
docker rm on the recorded container identifier, each through runDockerCommand
with the stop retry budget; calls freePort only after both succeed; any
rejection is caught and rethrown as a failure wrapping the underlying error,
leaving the pool untouched.  world gives each command's per-attempt outcome. -/
def stopServer (world : String → Nat → Except String String) (maxStopRetries : Nat)
    (s : SSHServerState) (pool : List Nat) : StopResult :=
  match runDockerCommand (world ("docker stop " ++ s.containerId)) maxStopRetries with
  | RunResult.failure e _ =>
      { result := Except.error ("Failed to remove server: " ++ e)
        issued := ["docker stop " ++ s.containerId]
        state := s
        pool := pool }
  | RunResult.success _ _ =>
      match runDockerCommand (world ("docker rm " ++ s.containerId)) maxStopRetries with
      | RunResult.failure e _ =>
          { result := Except.error ("Failed to remove server: " ++ e)
            issued := ["docker stop " ++ s.containerId, "docker rm " ++ s.containerId]
            state := s
            pool := pool }
      | RunResult.success _ _ =>
          let fp := freePort s pool
          { result := Except.ok ()
            issued := ["docker stop " ++ s.containerId, "docker rm " ++ s.containerId]
            state := fp.1
            pool := fp.2 }

/-- Claim C5: stopServer issues a stop command and, if that succeeds, a
removal command for the recorded container identifier, in that order; when it
succeeds the leased port is appended back to the pool; when either step
exhausts its retries it fails with an error of the StopFailed kind and the
pool is unchanged. -/
theorem c5_stopServer_port_on_success_only (world : String → Nat → Except String String)
    (n : Nat) (s : SSHServerState) (pool : List Nat) (p : Nat)
    (hp : s.reservedPort = some p) (hp0 : p ≠ 0) :
    ((stopServer world n s pool).issued = ["docker stop " ++ s.containerId] ∨
     (stopServer world n s pool).issued
        = ["docker stop " ++ s.containerId, "docker rm " ++ s.containerId]) ∧
    ((stopServer world n s pool).result = Except.ok () →
        (stopServer world n s pool).pool = pool ++ [p]) ∧
    (∀ e, (stopServer world n s pool).result = Except.error e →
        (stopServer world n s pool).pool = pool ∧
        ∃ msg, e = "Failed to remove server: " ++ msg) := by
  unfold stopServer
  rcases hstop : runDockerCommand (world ("docker stop " ++ s.containerId)) n with
    ⟨out1, a1⟩ | ⟨e1, a1⟩
  · rcases hrm : runDockerCommand (world ("docker rm " ++ s.containerId)) n with
      ⟨out2, a2⟩ | ⟨e2, a2⟩
    · refine ⟨Or.inr rfl, ?_, ?_⟩
      · intro _
        simp [freePort, hp, hp0]
      · intro e he
        simp at he
    · refine ⟨Or.inr rfl, ?_, ?_⟩
      · intro h
        simp at h
      · intro e he
        simp at he
        exact ⟨rfl, e2, he.symm⟩
  · refine ⟨Or.inl rfl, ?_, ?_⟩
    · intro h
      simp at h
    · intro e he
      simp at he
      exact ⟨rfl, e1, he.symm⟩

/-- Claim C5 witness: with both docker commands succeeding on their first
attempt, stopping a server that leased port 5000 returns the port to the tail
of the (empty) pool. -/
theorem c5_stopServer_witness :
    (stopServer (fun _ _ => Except.ok "") 3 ⟨some 5000, "cid"⟩ []).pool = [5000] :=
  (c5_stopServer_port_on_success_only (fun _ _ => Except.ok "") 3 ⟨some 5000, "cid"⟩ []
      5000 rfl (by omega)).2.1 rfl

/-! ## Claim C4: acquisition from an empty pool -/

/-- Settled state of the promise returned by SSHServer.fetchAndWaitForPort
after a given number of runner invocations: resolved with a port, rejected, or
still pending (the next invocation is scheduled). -/
inductive FetchOutcome
  | resolved (port : Nat)
  | rejected
  | pending
  deriving DecidableEq

/-- Polling loop of SSHServer.fetchAndWaitForPort (cc-api.js lines 958-977),
run for fuel runner invocations against a pool that stays empty between
polls.  Each invocation shifts the pool, resolves if a port came out, and
otherwise tests retries++ > this.reservePortMaxTime / this.reservePortTimeout
before scheduling the next invocation through setTimeout(runner, ...).
bound records whether the JS this is the SSHServer instance: that holds only
for the first invocation (runner.call(this) inside the arrow-function promise
executor); the invocations fired by the timer receive the Node timer object as
this, so both fields read as undefined, the quotient is NaN, and the JS
comparison retries > NaN is false — modelled by the unbound branch, which
never rejects. -/
def fetchAndWaitForPort (maxTime timeout : Nat) : Nat → Bool → Nat → List Nat → FetchOutcome
  | 0, _, _, _ => FetchOutcome.pending
  | Nat.succ fuel, bound, retries, pool =>
      match pool with
      | p :: _ => FetchOutcome.resolved p
      | [] =>
          if bound then
            if retries > maxTime / timeout then FetchOutcome.rejected
            else fetchAndWaitForPort maxTime timeout fuel false (retries + 1) []
          else
            fetchAndWaitForPort maxTime timeout fuel false (retries + 1) []

/-- Once the loop is past its first invocation, the retry bound can never
trigger: the loop stays pending forever on an empty pool. -/
theorem fetchAndWaitForPort_unbound_pending (maxTime timeout : Nat) :
    ∀ fuel retries, fetchAndWaitForPort maxTime timeout fuel false retries [] =
      FetchOutcome.pending := by
  intro fuel
  induction fuel with
  | zero => intro retries; rfl
  | succ n ih => intro retries; simpa [fetchAndWaitForPort] using ih (retries + 1)

/-- Claim C4 (code bug witness): acquisition against an empty pool that stays
empty never fails, for any retry configuration and any number of loop
iterations — the promise neither resolves nor rejects, so the code polls
forever instead of failing with a ResourceExhausted condition after roughly
maxWait/pollInterval attempts.  The first invocation cannot reject
(0 > maxTime/timeout is false) and every later invocation runs with this
unbound, making the retry bound unreachable. -/
theorem c4_fetchAndWaitForPort_never_fails (maxTime timeout fuel : Nat) :
    fetchAndWaitForPort maxTime timeout fuel true 0 [] = FetchOutcome.pending := by
  cases fuel with
  | zero => rfl
  | succ n =>
      have h0 : ¬ 0 > maxTime / timeout := Nat.not_lt_zero _
      simpa [fetchAndWaitForPort, h0] using
        fetchAndWaitForPort_unbound_pending maxTime timeout n 1

/-! ## Claim C9: stream fetches -/

/-- CCExperiment.getStd (cc-api.js lines 414-435), given that a response
arrived (the transport-error path rejects instead and is not taken here): the
accumulated body is blanked when the HTTP status code is 400 or greater, and
the promise then resolves with the buffer; it never rejects on a received
response.  The stream argument only selects the URL path suffix. -/
def getStd (stream : String) (statusCode : Nat) (body : String) : Except String String :=
  if statusCode ≥ 400 then Except.ok "" else Except.ok body

/-- CCExperiment.getStdout delegates to getStd with the stdout stream. -/
def getStdout (statusCode : Nat) (body : String) : Except String String :=
  getStd "stdout" statusCode body

/-- CCExperiment.getStderr delegates to getStd with the stderr stream. -/
def getStderr (statusCode : Nat) (body : String) : Except String String :=
  getStd "stderr" statusCode body

/-- Claim C9: for every stream fetch whose response has an HTTP status code of
400 or greater, the operation resolves (does not fail) with the empty string
instead of the response body; this covers getStd and its getStdout and
getStderr wrappers. -/
theorem c9_getStd_error_status_empty (stream body : String) (statusCode : Nat)
    (h : 400 ≤ statusCode) :
    getStd stream statusCode body = Except.ok "" ∧
    getStdout statusCode body = Except.ok "" ∧
    getStderr statusCode body = Except.ok "" := by
  refine ⟨?_, ?_, ?_⟩ <;> simp [getStd, getStdout, getStderr, h]

/-- Claim C9 witness: a stderr fetch answered with status 404 and body
Not Found resolves with the empty string. -/
theorem c9_getStd_witness :
    getStd "stderr" 404 "Not Found" = Except.ok "" ∧
    getStdout 404 "Not Found" = Except.ok "" ∧
    getStderr 404 "Not Found" = Except.ok "" :=
  c9_getStd_error_status_empty "stderr" "Not Found" 404 (by omega)

/-! ## Experiment status polling (claims C1, C8) -/

/-- One entry of the history array in the agency's batch response. -/
structure HistoryEntry where
  state : String
  debugInfo : String
  deriving DecidableEq

/-- Parsed body of the agency's GET batches response used by
fetchCurrentStatus. -/
structure BatchResponse where
  state : String
  history : List HistoryEntry
  deriving DecidableEq

/-- The CCExperiment fields read and written by fetchCurrentStatus, with the
batch identifier assumed resolved (the claims condition on a poll that
observes a remote status).  stopCalls counts the invocations of
this.sshServer.stopServer() and timerArmed whether the timeout watchdog is
armed. -/
structure PollState where
  currentStatus : String
  debugInfo : Option String
  timerArmed : Bool
  hasSSHServer : Bool
  stopCalls : Nat
  deriving DecidableEq

/-- CCExperiment.fetchCurrentStatus response handler (cc-api.js lines
215-237): stores the reported state; when it is failed, walks the history
array front to back and records the debugInfo of the first entry whose state
is failed (the for-loop breaks at the first match); when the new status is
succeeded or failed it clears the timeout timer and, if an SSH server is
attached, calls stopServer — unconditionally, with no once-only guard.
Returns the updated experiment state and the resolved status string. -/
def fetchCurrentStatus (e : PollState) (resp : BatchResponse) : PollState × String :=
  let st := resp.state
  let deb :=
    if st = "failed" then
      match resp.history.find? (fun h => h.state == "failed") with
      | some h => some h.debugInfo
      | none => e.debugInfo
    else e.debugInfo
  if st = "succeeded" ∨ st = "failed" then
    ({ currentStatus := st
       debugInfo := deb
       timerArmed := false
       hasSSHServer := e.hasSSHServer
       stopCalls := if e.hasSSHServer then e.stopCalls + 1 else e.stopCalls }, st)
  else
    ({ e with currentStatus := st, debugInfo := deb }, st)

/-! ## Claim C1: teardown on terminal polls -/

/-- Claim C1 counterexample: with an SSH server attached, a first
fetchCurrentStatus observing succeeded calls stopServer once, and a second
fetchCurrentStatus that again observes succeeded calls it a second time —
after two polls the stop count is 2, not 1, so teardown is not guarded
against double-stop. -/
theorem c1_pollStatus_double_stop_counterexample :
    ((fetchCurrentStatus
        (fetchCurrentStatus
            { currentStatus := "unknown", debugInfo := none, timerArmed := true,
              hasSSHServer := true, stopCalls := 0 }
            { state := "succeeded", history := [] }).1
        { state := "succeeded", history := [] }).1).stopCalls = 2 ∧
    ¬ ((fetchCurrentStatus
        (fetchCurrentStatus
            { currentStatus := "unknown", debugInfo := none, timerArmed := true,
              hasSSHServer := true, stopCalls := 0 }
            { state := "succeeded", history := [] }).1
        { state := "succeeded", history := [] }).1).stopCalls = 1 := by
  constructor
  · rfl
  · decide

/-- Claim C1 (amended): every fetchCurrentStatus call that observes status
succeeded on an experiment with an attached SSH server triggers one
stopServer() on that endpoint per call — there is no once-only guard, so a
later poll that again observes a terminal status triggers a further stop;
after two such polls the endpoint has been stopped twice. -/
theorem c1_pollStatus_stop_per_terminal_poll (e : PollState) (resp : BatchResponse)
    (hss : e.hasSSHServer = true) (hterm : resp.state = "succeeded") :
    ((fetchCurrentStatus e resp).1).stopCalls = e.stopCalls + 1 ∧
    ((fetchCurrentStatus (fetchCurrentStatus e resp).1 resp).1).stopCalls
        = e.stopCalls + 2 := by
  constructor
  · simp [fetchCurrentStatus, hterm, hss]
  · simp [fetchCurrentStatus, hterm, hss]

/-- Claim C1 amended witness: on a fresh experiment with an SSH server
attached, one poll observing succeeded yields stop count 1 and a second such
poll yields stop count 2. -/
theorem c1_pollStatus_stop_per_terminal_poll_witness :
    ((fetchCurrentStatus
        { currentStatus := "unknown", debugInfo := none, timerArmed := true,
          hasSSHServer := true, stopCalls := 0 }
        { state := "succeeded", history := [⟨"succeeded", ""⟩] }).1).stopCalls = 0 + 1 ∧
    ((fetchCurrentStatus
        (fetchCurrentStatus
            { currentStatus := "unknown", debugInfo := none, timerArmed := true,
              hasSSHServer := true, stopCalls := 0 }
            { state := "succeeded", history := [⟨"succeeded", ""⟩] }).1
        { state := "succeeded", history := [⟨"succeeded", ""⟩] }).1).stopCalls = 0 + 2 :=
  c1_pollStatus_stop_per_terminal_poll
    { currentStatus := "unknown", debugInfo := none, timerArmed := true,
      hasSSHServer := true, stopCalls := 0 }
    { state := "succeeded", history := [⟨"succeeded", ""⟩] } rfl rfl

/-! ## Claim C8: which failed history entry is recorded -/

/-- Spec-side reading of the claim, stated in the spec's words for comparison
with the code: the diagnostic payload of the most recent entry whose state is
failed.  The agency's history is an append-only log of state transitions
(oldest first), so the most recent failed entry is the last matching one in
the list. -/
def specMostRecentFailedDebugInfo (history : List HistoryEntry) : Option String :=
  (history.reverse.find? (fun h => h.state == "failed")).map HistoryEntry.debugInfo

/-- Claim C8 counterexample: on a failed response whose history holds two
failed entries — the first with payload first failure, the second (most
recent) with payload second failure — the code records the payload of the
first entry, while the most recent failed entry carries the other payload; the
two recorded values differ. -/
theorem c8_first_failed_entry_counterexample :
    ((fetchCurrentStatus
        { currentStatus := "processing", debugInfo := none, timerArmed := false,
          hasSSHServer := false, stopCalls := 0 }
        { state := "failed",
          history := [⟨"failed", "first failure"⟩, ⟨"failed", "second failure"⟩] }).1).debugInfo
        = some "first failure" ∧
    specMostRecentFailedDebugInfo
        [⟨"failed", "first failure"⟩, ⟨"failed", "second failure"⟩]
        = some "second failure" ∧
    ("first failure" : String) ≠ "second failure" := by
  refine ⟨rfl, rfl, by decide⟩

/-- A successful find? returns the first element of the list satisfying the
predicate: some index i holds the result, and every earlier index fails the
predicate. -/
theorem find?_first_index {α : Type} (p : α → Bool) :
    ∀ (l : List α) (x : α), l.find? p = some x →
      ∃ i, ∃ hi : i < l.length, l.get ⟨i, hi⟩ = x ∧ p x = true ∧
        ∀ j, ∀ hj : j < l.length, j < i → p (l.get ⟨j, hj⟩) = false := by
  intro l
  induction l with
  | nil => intro x h; simp at h
  | cons a t ih =>
      intro x h
      by_cases hp : p a
      · have hx : x = a := by
          rw [List.find?_cons_of_pos t hp] at h
          exact (Option.some_inj.mp h).symm
        subst hx
        exact ⟨0, by simp, rfl, hp, fun j hj hj0 => absurd hj0 (by omega)⟩
      · have h' : t.find? p = some x := by
          rw [List.find?_cons_of_neg t hp] at h
          exact h
        obtain ⟨i, hi, h1, h2, h3⟩ := ih x h'
        refine ⟨i + 1, by simpa using hi, by simpa using h1, h2, ?_⟩
        intro j hj hji
        cases j with
        | zero => simpa using hp
        | succ j' =>
            have hj' : j' < t.length := by simpa using hj
            have := h3 j' hj' (by omega)
            simpa using this

/-- Claim C8 (amended): on a poll whose response reports state failed with at
least one failed history entry, the code records the diagnostic payload of the
FIRST entry with state failed in the order the history is returned — the
for-loop breaks on the first match — which is the earliest, not the most
recent, failed entry when the history is append-ordered: some index i carries
state failed, its payload is recorded, and no earlier index carries state
failed. -/
theorem c8_debugInfo_first_failed_entry (e : PollState) (resp : BatchResponse)
    (hf : resp.state = "failed")
    (hx : ∃ h ∈ resp.history, h.state = "failed") :
    ∃ i, ∃ hi : i < resp.history.length,
      (resp.history.get ⟨i, hi⟩).state = "failed" ∧
      ((fetchCurrentStatus e resp).1).debugInfo
          = some (resp.history.get ⟨i, hi⟩).debugInfo ∧
      ∀ j, ∀ hj : j < resp.history.length, j < i →
        (resp.history.get ⟨j, hj⟩).state ≠ "failed" := by
  obtain ⟨he, hmem, hst⟩ := hx
  have hsome : (resp.history.find? (fun h => h.state == "failed")).isSome := by
    rw [List.find?_isSome]
    exact ⟨he, hmem, by simp [hst]⟩
  obtain ⟨x, hfind⟩ := Option.isSome_iff_exists.mp hsome
  obtain ⟨i, hi, hget, hpx, hbefore⟩ := find?_first_index _ resp.history x hfind
  refine ⟨i, hi, ?_, ?_, ?_⟩
  · rw [hget]
    simpa using hpx
  · simp [fetchCurrentStatus, hf, hfind]
    rw [List.get_eq_getElem] at hget
    rw [hget]
  · intro j hj hji
    have := hbefore j hj hji
    simpa using this

/-- Claim C8 amended witness: on a failed response with history entries
pending, failed with payload first failure, and failed with payload second
failure, the recorded diagnostic is the payload at index 1 — the first failed
entry — and index 0 is not failed. -/
theorem c8_debugInfo_first_failed_entry_witness :
    ∃ i, ∃ hi : i < ([⟨"pending", ""⟩, ⟨"failed", "first failure"⟩,
        ⟨"failed", "second failure"⟩] : List HistoryEntry).length,
      (([⟨"pending", ""⟩, ⟨"failed", "first failure"⟩,
          ⟨"failed", "second failure"⟩] : List HistoryEntry).get ⟨i, hi⟩).state = "failed" ∧
      ((fetchCurrentStatus
          { currentStatus := "processing", debugInfo := none, timerArmed := false,
            hasSSHServer := false, stopCalls := 0 }
          { state := "failed",
            history := [⟨"pending", ""⟩, ⟨"failed", "first failure"⟩,
              ⟨"failed", "second failure"⟩] }).1).debugInfo
          = some ((([⟨"pending", ""⟩, ⟨"failed", "first failure"⟩,
              ⟨"failed", "second failure"⟩] : List HistoryEntry).get ⟨i, hi⟩).debugInfo) ∧
      ∀ j, ∀ hj : j < ([⟨"pending", ""⟩, ⟨"failed", "first failure"⟩,
          ⟨"failed", "second failure"⟩] : List HistoryEntry).length, j < i →
        (([⟨"pending", ""⟩, ⟨"failed", "first failure"⟩,
            ⟨"failed", "second failure"⟩] : List HistoryEntry).get ⟨j, hj⟩).state ≠ "failed" :=
  c8_debugInfo_first_failed_entry
    { currentStatus := "processing", debugInfo := none, timerArmed := false,
      hasSSHServer := false, stopCalls := 0 }
    { state := "failed",
      history := [⟨"pending", ""⟩, ⟨"failed", "first failure"⟩,
        ⟨"failed", "second failure"⟩] }
    rfl ⟨⟨"failed", "first failure"⟩, by simp, rfl⟩

/-! ## Submission (claims C2, C10) -/

/-- CCInput value object: name, type, command-line position, and optional
string value (the connector document is outside these claims). -/
structure CCInput where
  name : String
  type : String
  position : Nat
  value : Option String
  deriving DecidableEq

/-- CCInput.getREDInput: a string-typed input contributes its set value, any
other type contributes its class together with its connector document
(abstracted here to the class name). -/
def getREDInput (i : CCInput) : String :=
  if i.type = "string" then i.value.getD "" else i.type

/-- CCExperiment.getREDInputs (cc-api.js lines 342-352): throws the error
message below when the inputs list is empty, otherwise maps each input name to
its RED entry. -/
def getREDInputs (inputs : List CCInput) : Except String (List (String × String)) :=
  if inputs.length = 0 then
    Except.error "No inputs defined! Add at least one input."
  else
    Except.ok (inputs.map fun i => (i.name, getREDInput i))

/-- Outcome of the POST red exchange as seen by startExperiment's callbacks:
the request errored at the transport level, the body failed to parse as JSON,
or it parsed with an optional experimentId field. -/
inductive SubmitResponse
  | transportError (msg : String)
  | parseError (msg : String)
  | parsed (experimentId : Option String)
  deriving DecidableEq

/-- JS truthiness of json_response.experimentId: an absent field and the empty
string are both falsy. -/
def experimentIdTruthy : Option String → Bool
  | none => false
  | some s => s ≠ ""

/-- The CCExperiment fields that drive and are affected by startExperiment. -/
structure CCExperimentState where
  inputs : List CCInput
  redBuilt : Bool
  currentStatus : String
  experimentId : Option String
  hasSSHServer : Bool
  timeout : Nat
  deriving DecidableEq

/-- Observable outcome of one startExperiment call: the settled promise,
whether sshServer.startServer was attempted, whether the POST reached the
transport, whether sshServer.stopServer was invoked on the failure path, and
the resulting experiment fields. -/
structure StartResult where
  result : Except String String
  sshStartAttempted : Bool
  requestSent : Bool
  sshStopCalled : Bool
  experimentId : Option String
  currentStatus : String
  timerArmed : Bool

/-- Request/response phase of CCExperiment.startExperiment (cc-api.js lines
108-145), entered once the RED document exists: when an SSH server is attached
it is started first (assumed to start successfully; its own failure path is
outside these claims), then the POST is issued.  A transport error stops the
attached SSH server and rejects; a parse error rejects without stopping
anything; a parsed body with a truthy experimentId records it, arms the
timeout timer when the configured timeout is positive, and resolves; a parsed
body without one rejects with the missing-identifier error and, in the source,
does not touch the SSH server. -/
def startAfterRED (e : CCExperimentState) (resp : SubmitResponse) : StartResult :=
  match resp with
  | SubmitResponse.transportError msg =>
      { result := Except.error ("HTTP request error: " ++ msg)
        sshStartAttempted := e.hasSSHServer
        requestSent := true
        sshStopCalled := e.hasSSHServer
        experimentId := e.experimentId
        currentStatus := e.currentStatus
        timerArmed := false }
  | SubmitResponse.parseError msg =>
      { result := Except.error ("Failed to parse the response data: " ++ msg)
        sshStartAttempted := e.hasSSHServer
        requestSent := true
        sshStopCalled := false
        experimentId := e.experimentId
        currentStatus := e.currentStatus
        timerArmed := false }
  | SubmitResponse.parsed eid =>
      if experimentIdTruthy eid then
        { result := Except.ok (eid.getD "")
          sshStartAttempted := e.hasSSHServer
          requestSent := true
          sshStopCalled := false
          experimentId := eid
          currentStatus := e.currentStatus
          timerArmed := decide (e.timeout > 0) }
      else
        { result := Except.error "Experiment ID not returned in the response."
          sshStartAttempted := e.hasSSHServer
          requestSent := true
          sshStopCalled := false
          experimentId := e.experimentId
          currentStatus := e.currentStatus
          timerArmed := false }

/-- CCExperiment.startExperiment (cc-api.js lines 104-146): builds the RED
document first when none exists yet — createRED evaluates getREDInputs, whose
empty-inputs error aborts the call before the SSH server is started and before
any request is sent — and then runs the request/response phase. -/
def startExperiment (e : CCExperimentState) (resp : SubmitResponse) : StartResult :=
  if e.redBuilt then startAfterRED e resp
  else
    match getREDInputs e.inputs with
    | Except.error msg =>
        { result := Except.error msg
          sshStartAttempted := false
          requestSent := false
          sshStopCalled := false
          experimentId := e.experimentId
          currentStatus := e.currentStatus
          timerArmed := false }
    | Except.ok _ => startAfterRED e resp

/-! ## Claim C2: submission failure paths -/

/-- Claim C2 counterexample: a submission on an experiment with an attached
(and therefore started) SSH server whose response parses but carries no
experimentId rejects with the missing-identifier error, yet stopServer is NOT
invoked on that endpoint — the endpoint is not stopped and its port cannot be
back in the pool, contrary to the claim. -/
theorem c2_missing_id_no_stop_counterexample :
    (startExperiment
        { inputs := [⟨"script", "File", 0, none⟩], redBuilt := true,
          currentStatus := "unknown", experimentId := none,
          hasSSHServer := true, timeout := 0 }
        (SubmitResponse.parsed none)).result
        = Except.error "Experiment ID not returned in the response." ∧
    (startExperiment
        { inputs := [⟨"script", "File", 0, none⟩], redBuilt := true,
          currentStatus := "unknown", experimentId := none,
          hasSSHServer := true, timeout := 0 }
        (SubmitResponse.parsed none)).sshStartAttempted = true ∧
    (startExperiment
        { inputs := [⟨"script", "File", 0, none⟩], redBuilt := true,
          currentStatus := "unknown", experimentId := none,
          hasSSHServer := true, timeout := 0 }
        (SubmitResponse.parsed none)).sshStopCalled = false := by
  refine ⟨rfl, rfl, rfl⟩

/-- Claim C2 (amended): a submission whose response parses but omits (or
leaves falsy) the experiment identifier fails with the error Experiment ID not
returned in the response., but the started SSH endpoint is NOT stopped on this
path; only on transport failure does startExperiment stop the started
endpoint (stopServer is invoked exactly when an SSH server is attached). -/
theorem c2_startExperiment_error_paths (e : CCExperimentState) (msg : String)
    (hred : e.redBuilt = true) :
    ((startExperiment e (SubmitResponse.parsed none)).result
        = Except.error "Experiment ID not returned in the response." ∧
     (startExperiment e (SubmitResponse.parsed none)).sshStopCalled = false) ∧
    ((startExperiment e (SubmitResponse.transportError msg)).result
        = Except.error ("HTTP request error: " ++ msg) ∧
     (startExperiment e (SubmitResponse.transportError msg)).sshStopCalled
        = e.hasSSHServer) := by
  refine ⟨⟨?_, ?_⟩, ?_, ?_⟩ <;>
    simp [startExperiment, startAfterRED, hred, experimentIdTruthy]

/-- Claim C2 amended witness: at a concrete experiment with an attached SSH
server and RED already built, the missing-identifier response rejects without
stopping the endpoint and a transport error rejects and stops it. -/
theorem c2_startExperiment_error_paths_witness :
    ((startExperiment
        { inputs := [⟨"data", "File", 1, none⟩], redBuilt := true,
          currentStatus := "unknown", experimentId := none,
          hasSSHServer := true, timeout := 1 }
        (SubmitResponse.parsed none)).result
        = Except.error "Experiment ID not returned in the response." ∧
     (startExperiment
        { inputs := [⟨"data", "File", 1, none⟩], redBuilt := true,
          currentStatus := "unknown", experimentId := none,
          hasSSHServer := true, timeout := 1 }
        (SubmitResponse.parsed none)).sshStopCalled = false) ∧
    ((startExperiment
        { inputs := [⟨"data", "File", 1, none⟩], redBuilt := true,
          currentStatus := "unknown", experimentId := none,
          hasSSHServer := true, timeout := 1 }
        (SubmitResponse.transportError "socket hang up")).result
        = Except.error ("HTTP request error: " ++ "socket hang up") ∧
     (startExperiment
        { inputs := [⟨"data", "File", 1, none⟩], redBuilt := true,
          currentStatus := "unknown", experimentId := none,
          hasSSHServer := true, timeout := 1 }
        (SubmitResponse.transportError "socket hang up")).sshStopCalled = true) :=
  c2_startExperiment_error_paths
    { inputs := [⟨"data", "File", 1, none⟩], redBuilt := true,
      currentStatus := "unknown", experimentId := none,
      hasSSHServer := true, timeout := 1 }
    "socket hang up" rfl

/-! ## Claim C10: empty inputs -/

/-- Claim C10: a first startExperiment call (no RED document built yet) on an
experiment whose inputs list is empty fails with the error No inputs defined!
Add at least one input., raised while building the job description: the SSH
server is not started, no request is sent, and the experiment's status and
experimentId are unchanged. -/
theorem c10_startExperiment_no_inputs (e : CCExperimentState) (resp : SubmitResponse)
    (hred : e.redBuilt = false) (hin : e.inputs = []) :
    (startExperiment e resp).result
        = Except.error "No inputs defined! Add at least one input." ∧
    (startExperiment e resp).sshStartAttempted = false ∧
    (startExperiment e resp).requestSent = false ∧
    (startExperiment e resp).experimentId = e.experimentId ∧
    (startExperiment e resp).currentStatus = e.currentStatus := by
  refine ⟨?_, ?_, ?_, ?_, ?_⟩ <;>
    simp [startExperiment, getREDInputs, hred, hin]

/-- Claim C10 witness: a fresh experiment with no inputs and an attached SSH
server, submitted against a response that would otherwise succeed, fails with
the no-inputs error, attempts no SSH start, sends no request, and keeps its
status and identifier. -/
theorem c10_startExperiment_no_inputs_witness :
    (startExperiment
        { inputs := [], redBuilt := false, currentStatus := "unknown",
          experimentId := none, hasSSHServer := true, timeout := 0 }
        (SubmitResponse.parsed (some "exp-1"))).result
        = Except.error "No inputs defined! Add at least one input." ∧
    (startExperiment
        { inputs := [], redBuilt := false, currentStatus := "unknown",
          experimentId := none, hasSSHServer := true, timeout := 0 }
        (SubmitResponse.parsed (some "exp-1"))).sshStartAttempted = false ∧
    (startExperiment
        { inputs := [], redBuilt := false, currentStatus := "unknown",
          experimentId := none, hasSSHServer := true, timeout := 0 }
        (SubmitResponse.parsed (some "exp-1"))).requestSent = false ∧
    (startExperiment
        { inputs := [], redBuilt := false, currentStatus := "unknown",
          experimentId := none, hasSSHServer := true, timeout := 0 }
        (SubmitResponse.parsed (some "exp-1"))).experimentId = none ∧
    (startExperiment
        { inputs := [], redBuilt := false, currentStatus := "unknown",
          experimentId := none, hasSSHServer := true, timeout := 0 }
        (SubmitResponse.parsed (some "exp-1"))).currentStatus = "unknown" :=
  c10_startExperiment_no_inputs
    { inputs := [], redBuilt := false, currentStatus := "unknown",
      experimentId := none, hasSSHServer := true, timeout := 0 }
    (SubmitResponse.parsed (some "exp-1")) rfl rfl

end CCApi
